import Mathlib

/-!
Verification of the OMNeT++ routing example (files `Routing.cc` and `BurstyApp.cc`).

The simulation kernel (event queue, `cTopology` shortest-path service, signal
recording, random-number draws) is an external collaborator; it is modelled as
explicit inputs: the shortest-path result is an oracle `firstHopGate`, random
draws arrive as explicit `Draws` values, and emitted signals are recorded in the
returned action values.
-/

deriving instance DecidableEq for Except

namespace RoutingSim

/-! ## Routing.cc : data model -/

/-- A data packet as used by `Routing::handleMessage` (`Packet_m.h` fields
relevant here: name, byte length, source/destination address, hop count). -/
structure Packet where
  name : String
  byteLength : Int
  srcAddr : Int
  destAddr : Int
  hopCount : Int
deriving DecidableEq, Repr

/-- The topology snapshot together with the external shortest-path service, as
consumed by `Routing::initialize`.  `address i` is `topo->getNode(i)->getModule()->par("address")`.
`firstHopGate i` models the combined effect of
`calculateUnweightedSingleShortestPathsTo(topo->getNode(i))` followed by
`thisNode->getNumPaths()` / `thisNode->getPath(0)->getLocalGate()->getIndex()`:
it is `some g` when a path from this node to node `i` exists and `g` is the
local gate index of the first minimum-hop path, and `none` when
`getNumPaths() == 0`. -/
structure Topo where
  numNodes : Nat
  address : Nat → Int
  firstHopGate : Nat → Option Int

/-- The mutable state of a `Routing` module: its address and its routing table
`rtable : destaddr -> gateindex` (`std::map<int,int>`, modelled as a partial
function; later inserts overwrite earlier ones exactly as `rtable[addr] = g`). -/
structure RState where
  myAddress : Int
  rtable : Int → Option Int

/-- Insert-or-assign `rtable[a] = g` on a `std::map`. -/
def rtableInsert (t : Int → Option Int) (a g : Int) : Int → Option Int :=
  fun x => if x = a then some g else t x

/-- The distributed-routing loop of `Routing::initialize` (lines 114-128):
iterate `i = 0 .. m-1`; skip `thisNode`; skip destinations with no path;
otherwise `rtable[address] = gateIndex`. `buildRtable topo thisIdx m` is the
table after the first `m` iterations, starting from the empty table. -/
def buildRtable (topo : Topo) (thisIdx : Nat) : Nat → (Int → Option Int)
  | 0 => fun _ => none
  | n + 1 =>
    let t := buildRtable topo thisIdx n
    if n = thisIdx then t
    else
      match topo.firstHopGate n with
      | none => t
      | some g => rtableInsert t (topo.address n) g

/-- The (destination address, gate index) pairs recorded by the centralized
branch of `Routing::initialize` (lines 70-85), in loop order: one pair per
other node that has a path, unreachable nodes skipped. -/
def centralPairs (topo : Topo) (thisIdx : Nat) : Nat → List (Int × Int)
  | 0 => []
  | n + 1 =>
    let acc := centralPairs topo thisIdx n
    if n = thisIdx then acc
    else
      match topo.firstHopGate n with
      | none => acc
      | some g => acc ++ [(topo.address n, g)]

/-- The serialized `routes` string built by the centralized branch
(lines 68-84): for each recorded pair, `if (!routes.empty()) routes += ","`;
`routes += to_string(destAddress) + ":" + to_string(gateIndex)`. -/
def centralRoutesString (topo : Topo) (thisIdx : Nat) : Nat → String
  | 0 => ""
  | n + 1 =>
    let routes := centralRoutesString topo thisIdx n
    if n = thisIdx then routes
    else
      match topo.firstHopGate n with
      | none => routes
      | some g =>
        (if routes.isEmpty then routes else routes ++ ",") ++
          toString (topo.address n) ++ ":" ++ toString g

/-- Result of `Routing::initialize`: the routing table it built, and the
`routingInfo` string broadcast in a `ROUTE_UPDATE` message when this node is
the centralized root (`none` when nothing is broadcast). -/
structure InitResult where
  rtable : Int → Option Int
  broadcast : Option String

/-- The setup routine `Routing::initialize` (lines 41-131).  If `centralRouting` is set, only the
node with address 0 acts: it computes the route listing and broadcasts it, and
nothing is ever written into `rtable` (the inner `if` has no `else`, so a
centralized non-root node does nothing at all).  Otherwise the distributed loop
fills this node's own `rtable`. -/
def initializeRouting (centralRouting : Bool) (myAddress : Int) (topo : Topo)
    (thisIdx : Nat) : InitResult :=
  if centralRouting then
    if myAddress = 0 then
      { rtable := fun _ => none
        broadcast := some (centralRoutesString topo thisIdx topo.numNodes) }
    else
      { rtable := fun _ => none, broadcast := none }
  else
    { rtable := buildRtable topo thisIdx topo.numNodes, broadcast := none }

/-- The externally visible action taken by `Routing::handleMessage` on one
packet: local delivery on gate `localOut` with the emitted `outputIf` value,
drop with the emitted `drop` value, or forwarding of the (hop-count-updated)
packet on gate `out[outGateIndex]` with the emitted `outputIf` value. -/
inductive FwdAction where
  | deliverLocal (pk : Packet) (outputIfEmit : Int)
  | drop (dropEmit : Int)
  | forward (pk : Packet) (outGateIndex : Int) (outputIfEmit : Int)
deriving DecidableEq, Repr

/-- The forwarder `Routing::handleMessage` (lines 133-159): local-delivery check first
(emitting `outputIf = -1`), then table lookup (absent: emit `drop` with the
byte length and destroy the packet), else increment the hop count, emit
`outputIf` with the gate index and send on that gate.  The function also
returns the module state, which the source never mutates here. -/
def Routing.handleMessage (st : RState) (pk : Packet) : FwdAction × RState :=
  if pk.destAddr = st.myAddress then
    (.deliverLocal pk (-1), st)
  else
    match st.rtable pk.destAddr with
    | none => (.drop pk.byteLength, st)
    | some outGateIndex =>
      (.forward { pk with hopCount := pk.hopCount + 1 } outGateIndex outGateIndex, st)

/-! ## BurstyApp.cc : data model

Simulation time: `simtime_t` is a 64-bit fixed-point count of time units, so it
is modelled as an unbounded integer `Int` (the scenario values 10, 5, 1 are
exact in any unit).  The random draws made during one event (`doubleValue()`
on the duration parameters, `intuniform` for the destination pick) are external
inputs, passed in as an explicit `Draws` record. -/

/-- The FSM states declared in `BurstyApp` (lines 32-37): `INIT = 0`,
`SLEEP = FSM_Steady(1)`, `ACTIVE = FSM_Steady(2)`, `SEND = FSM_Transient(1)`.
`SEND` is declared but no `FSM_Goto` in the module targets it. -/
inductive FsmState where
  | INIT
  | SLEEP
  | ACTIVE
  | SEND
deriving DecidableEq, Repr

/-- A packet produced by `BurstyApp::generatePacket`, with the FSM state that
`fsm.getState()` held at the moment of the call recorded alongside (used to
express "no packet is generated while Sleeping"). -/
structure GenPacket where
  name : String
  srcAddr : Int
  destAddr : Int
  byteLength : Int
  atState : FsmState
  atTime : Int
deriving DecidableEq, Repr

/-- The two self-messages of `BurstyApp`: `startStopBurst` (phase-boundary
timer) and `sendMessage` (inter-send timer). -/
inductive Ev where
  | startStopBurst
  | sendMessage
deriving DecidableEq, Repr

/-- Configuration parameters of one `BurstyApp` (read in `initialize`,
lines 86-91). -/
structure AppConfig where
  myAddress : Int
  destAddresses : List Int
  packetLength : Int
deriving DecidableEq, Repr

/-- The values returned by the external RNG/parameter reads that can occur
while processing one event: `burstTime->doubleValue()` (exit from SLEEP),
`sleepTime->doubleValue()` (entry to SLEEP), `sendIaTime->doubleValue()` in the
`FSM_Exit(ACTIVE)` sendMessage branch and in the `FSM_Enter(ACTIVE)` block,
and the two corresponding `intuniform(0, size-1)` destination picks. -/
structure Draws where
  burst : Int
  sleep : Int
  iaExit : Int
  iaEnter : Int
  pickExit : Nat
  pickEnter : Nat
deriving DecidableEq, Repr

/-- The state of one `BurstyApp` between events: FSM state, packet counter,
current simulation time, the pending time of each self-message (`none` when the
message is not scheduled), and the list of packets generated so far. -/
structure AppState where
  fsm : FsmState
  pkCounter : Nat
  time : Int
  ssbAt : Option Int
  sendAt : Option Int
  sent : List GenPacket
deriving DecidableEq, Repr

/-- The packet factory `BurstyApp::generatePacket` (lines 176-189): pick a destination uniformly
from `destAddresses` (the pick index is the external draw), build the name
`pk-<src>-to-<dest>-#<counter>`, post-increment `pkCounter`, and send the
packet on gate `out`. -/
def generatePacket (cfg : AppConfig) (pick : Nat) (s : AppState) : AppState :=
  let destAddress := cfg.destAddresses.getD pick 0
  let pkname := "pk-" ++ toString cfg.myAddress ++ "-to-" ++ toString destAddress
      ++ "-#" ++ toString s.pkCounter
  { s with
    pkCounter := s.pkCounter + 1
    sent := s.sent ++ [{ name := pkname, srcAddr := cfg.myAddress,
                         destAddr := destAddress, byteLength := cfg.packetLength,
                         atState := s.fsm, atTime := s.time }] }

/-- The `FSM_Exit` cases of `BurstyApp::processTimer` (lines 116-168).  The
`FSM_Switch` macro of `cfsm.h` dispatches `((state) << 1) | 1` first, so the
exit block of the current state runs once per event; `FSM_Goto` simply assigns
the new state.  `SEND` has no case in the switch, so nothing happens there.
The `cRuntimeError` throws are modelled as `Except.error` with the source's
message text. -/
def exitPhase (cfg : AppConfig) (ev : Ev) (dr : Draws) (s : AppState) :
    Except String AppState :=
  match s.fsm with
  | .INIT =>
    -- case FSM_Exit(INIT): FSM_Goto(fsm, SLEEP)
    .ok { s with fsm := .SLEEP }
  | .SLEEP =>
    -- case FSM_Exit(SLEEP): schedule startStopBurst at now+burstTime,
    -- check the message identity, FSM_Goto(fsm, ACTIVE)
    let s1 := { s with ssbAt := some (s.time + dr.burst) }
    match ev with
    | .startStopBurst => .ok { s1 with fsm := .ACTIVE }
    | .sendMessage => .error "invalid event in state ACTIVE"
  | .ACTIVE =>
    match ev with
    | .startStopBurst =>
      -- cancelEvent(sendMessage); FSM_Goto(fsm, SLEEP)
      .ok { s with sendAt := none, fsm := .SLEEP }
    | .sendMessage =>
      -- generatePacket(); cancelEvent(sendMessage); reschedule; remain ACTIVE
      let s1 := generatePacket cfg dr.pickExit s
      .ok { s1 with sendAt := some (s.time + dr.iaExit) }
  | .SEND =>
    -- no case in the switch for the (never entered) transient SEND state
    .ok s

/-- The `FSM_Enter` cases of `BurstyApp::processTimer`.  The `FSM_Switch`
macro dispatches `((state) << 1) | 0` on its second iteration, so the enter
block of the state reached after the exit block runs on every event, also when
the exit block made no `FSM_Goto` and the state is unchanged.  `INIT` and
`SEND` have no enter case in the switch. -/
def enterPhase (cfg : AppConfig) (dr : Draws) (s : AppState) : AppState :=
  match s.fsm with
  | .SLEEP =>
    -- case FSM_Enter(SLEEP): schedule startStopBurst at now+sleepTime
    { s with ssbAt := some (s.time + dr.sleep) }
  | .ACTIVE =>
    -- case FSM_Enter(ACTIVE): cancelEvent(sendMessage); schedule it at
    -- now+sendIaTime; generatePacket()
    let s1 := { s with sendAt := some (s.time + dr.iaEnter) }
    generatePacket cfg dr.pickEnter s1
  | _ => s

/-- The scheduled time of a self-message, `none` when it is not pending. -/
def pendingTime (s : AppState) : Ev → Option Int
  | .startStopBurst => s.ssbAt
  | .sendMessage => s.sendAt

/-- Removing a self-message from the future-event set (it is being delivered). -/
def clearTimer (s : AppState) : Ev → AppState
  | .startStopBurst => { s with ssbAt := none }
  | .sendMessage => { s with sendAt := none }

/-- Delivery of one pending self-message `ev`: the scheduler removes it from
the event set, advances `simTime()` to its scheduled time and calls
`BurstyApp::handleMessage`, which dispatches self-messages to `processTimer`
(lines 105-111).  `processTimer`'s `FSM_Switch` runs the exit block of the
current state and then the enter block of the resulting state; since the
transient `SEND` state is never entered, the macro's transient-state loop never
iterates further. -/
def fire (cfg : AppConfig) (ev : Ev) (dr : Draws) (s : AppState) :
    Except String AppState :=
  match pendingTime s ev with
  | none => .error "message not scheduled"
  | some t =>
    let s0 := { clearTimer s ev with time := t }
    match exitPhase cfg ev dr s0 with
    | .error e => .error e
    | .ok s1 => .ok (enterPhase cfg dr s1)

/-- The state right after `BurstyApp::initialize` (lines 73-103): FSM in
`INIT` (numeric code 0), `pkCounter = 0`, `startStopBurst` scheduled at
time 0, `sendMessage` not scheduled, no packet sent. -/
def initState : AppState :=
  { fsm := .INIT, pkCounter := 0, time := 0, ssbAt := some 0, sendAt := none,
    sent := [] }

/-- The configurations reachable in exactly `n` delivered self-message events,
for arbitrary external draws at each event. -/
inductive ReachN (cfg : AppConfig) : Nat → AppState → Prop where
  | init : ReachN cfg 0 initState
  | step {n s ev dr s'} : ReachN cfg n s → fire cfg ev dr s = .ok s' →
      ReachN cfg (n + 1) s'

/-! ## Invariant of the burst scheduler -/

/-- The inductive invariant of one `BurstyApp`: relation between the FSM state
and the pending self-messages, unreachability of the transient `SEND` state,
and the fact that every generated packet was generated while the FSM was in
`ACTIVE`. -/
def BurstyInv (s : AppState) : Prop :=
  (s.fsm = .INIT → s.sendAt = none)
  ∧ (s.fsm = .SLEEP → s.ssbAt.isSome = true ∧ s.sendAt = none)
  ∧ (s.fsm = .ACTIVE → s.ssbAt.isSome = true ∧ s.sendAt.isSome = true)
  ∧ s.fsm ≠ .SEND
  ∧ (∀ p ∈ s.sent, p.atState = .ACTIVE)

/-! ## Concrete instances used by the scenarios -/

/-- A 2-node topology used as a concrete test input: this node is index 0 with
address 1; node 1 has address 7 and is reachable through local gate 0. -/
def topoC : Topo :=
  { numNodes := 2
    address := fun i => if i = 1 then 7 else 1
    firstHopGate := fun i => if i = 1 then some 0 else none }

/-- The topology of spec Scenario 3: the root (index 0, address 0) plus 4 peer
nodes with addresses 1-4; peer 3 is unreachable, the others are reachable
through gates 0, 1, 1. -/
def topo9 : Topo :=
  { numNodes := 5
    address := fun i => (i : Int)
    firstHopGate := fun i =>
      if i = 1 then some 0 else if i = 2 then some 1 else if i = 4 then some 1 else none }

/-- A concrete routing-module state: address 7; table with entries
`7 -> 3` (an entry for the node's own address) and `9 -> 2`. -/
def stW : RState :=
  { myAddress := 7
    rtable := fun x => if x = 7 then some 3 else if x = 9 then some 2 else none }

/-- A packet addressed to this node (`destAddr = 7 = stW.myAddress`). -/
def pkLocal : Packet :=
  { name := "pk-5-to-7-#0", byteLength := 64, srcAddr := 5, destAddr := 7, hopCount := 2 }

/-- A packet addressed to a destination absent from `stW`'s table. -/
def pkMiss : Packet :=
  { name := "pk-5-to-11-#1", byteLength := 64, srcAddr := 5, destAddr := 11, hopCount := 2 }

/-- A packet addressed to a destination present in `stW`'s table (`9 -> 2`). -/
def pkHit : Packet :=
  { name := "pk-5-to-9-#2", byteLength := 64, srcAddr := 5, destAddr := 9, hopCount := 2 }

/-- The configuration of spec Scenario 1: address 5, destinations `[1,2,3]`
(packet length 64, not constrained by the scenario). -/
def cfg6 : AppConfig := { myAddress := 5, destAddresses := [1, 2, 3], packetLength := 64 }

/-- The external draws of spec Scenario 1: `sleepTime = 10`, `burstTime = 5`,
`sendIaTime = 1`, destination pick 0 (address 1) at each draw. -/
def dr6 : Draws :=
  { burst := 5, sleep := 10, iaExit := 1, iaEnter := 1, pickExit := 0, pickEnter := 0 }

/-- The packet generated `i`-th by the Scenario-1 node at time `t` (its
destination pick is always 0, hence address 1). -/
def pk6 (i : Nat) (t : Int) : GenPacket :=
  { name := "pk-5-to-1-#" ++ toString i, srcAddr := 5, destAddr := 1, byteLength := 64,
    atState := .ACTIVE, atTime := t }

/-- Scenario 1 after the `t = 0` event: Sleeping, phase timer at 10. -/
def s6a : AppState :=
  { fsm := .SLEEP, pkCounter := 0, time := 0, ssbAt := some 10, sendAt := none, sent := [] }

/-- Scenario 1 during the `t = 10` event, after the `FSM_Exit(SLEEP)` block and
before the `FSM_Enter(ACTIVE)` block: phase timer already moved to 15, no
packet generated yet. -/
def s6b : AppState :=
  { fsm := .ACTIVE, pkCounter := 0, time := 10, ssbAt := some 15, sendAt := none, sent := [] }

/-- Scenario 1 after the `t = 10` event: Bursting, phase timer at 15,
inter-send timer at 11, packet #0 sent. -/
def s6c : AppState :=
  { fsm := .ACTIVE, pkCounter := 1, time := 10, ssbAt := some 15, sendAt := some 11,
    sent := [pk6 0 10] }

/-- Scenario 1 after the `t = 11` inter-send event: the code generated packets
#1 (in the `FSM_Exit(ACTIVE)` branch) and #2 (in the re-executed
`FSM_Enter(ACTIVE)` block). -/
def s6d : AppState :=
  { fsm := .ACTIVE, pkCounter := 3, time := 11, ssbAt := some 15, sendAt := some 12,
    sent := [pk6 0 10, pk6 1 11, pk6 2 11] }

/-- Scenario 1 after the `t = 12` inter-send event: packets #3 and #4. -/
def s6e : AppState :=
  { fsm := .ACTIVE, pkCounter := 5, time := 12, ssbAt := some 15, sendAt := some 13,
    sent := [pk6 0 10, pk6 1 11, pk6 2 11, pk6 3 12, pk6 4 12] }

/-! ## Lemmas about the routing-table construction -/

/-- The domain of the table built by the distributed loop: a destination is
present exactly when some other node carries that address and has a path. -/
lemma buildRtable_ne_none (topo : Topo) (thisIdx : Nat) :
    ∀ m d, buildRtable topo thisIdx m d ≠ none
      ↔ ∃ i, i < m ∧ i ≠ thisIdx ∧ topo.address i = d ∧ topo.firstHopGate i ≠ none := by
  intro m
  induction m with
  | zero => intro d; simp [buildRtable]
  | succ n ih =>
    intro d
    simp only [buildRtable]
    by_cases hn : n = thisIdx
    · rw [if_pos hn, ih]
      constructor
      · rintro ⟨i, hi, hne, ha, hg⟩
        exact ⟨i, by omega, hne, ha, hg⟩
      · rintro ⟨i, hi, hne, ha, hg⟩
        refine ⟨i, ?_, hne, ha, hg⟩
        rcases Nat.lt_succ_iff_lt_or_eq.mp hi with h | h
        · exact h
        · exact absurd (h.trans hn) hne
    · rw [if_neg hn]
      cases hg : topo.firstHopGate n with
      | none =>
        rw [ih]
        constructor
        · rintro ⟨i, hi, hne, ha, hgi⟩
          exact ⟨i, by omega, hne, ha, hgi⟩
        · rintro ⟨i, hi, hne, ha, hgi⟩
          refine ⟨i, ?_, hne, ha, hgi⟩
          rcases Nat.lt_succ_iff_lt_or_eq.mp hi with h | h
          · exact h
          · exact absurd (h ▸ hg) hgi
      | some g =>
        unfold rtableInsert
        by_cases hd : d = topo.address n
        · simp only [hd, if_pos rfl]
          constructor
          · intro _
            exact ⟨n, Nat.lt_succ_self n, hn, rfl, by simp [hg]⟩
          · intro _
            simp
        · simp only [if_neg hd, ih]
          constructor
          · rintro ⟨i, hi, hne, ha, hgi⟩
            exact ⟨i, by omega, hne, ha, hgi⟩
          · rintro ⟨i, hi, hne, ha, hgi⟩
            refine ⟨i, ?_, hne, ha, hgi⟩
            rcases Nat.lt_succ_iff_lt_or_eq.mp hi with h | h
            · exact h
            · exact absurd (h ▸ ha).symm hd

/-- The value stored by the distributed loop: when the addresses of the other
nodes are pairwise distinct, the entry for a reachable node's address is the
first-hop gate index the shortest-path service returned for it. -/
lemma buildRtable_value (topo : Topo) (thisIdx : Nat)
    (hinj : ∀ i, i < topo.numNodes → ∀ j, j < topo.numNodes → i ≠ thisIdx → j ≠ thisIdx →
      topo.address i = topo.address j → i = j) :
    ∀ m, m ≤ topo.numNodes → ∀ i g, i < m → i ≠ thisIdx → topo.firstHopGate i = some g →
      buildRtable topo thisIdx m (topo.address i) = some g := by
  intro m
  induction m with
  | zero => intro _ i g hi; exact absurd hi (Nat.not_lt_zero i)
  | succ n ih =>
    intro hm i g hi hne hg
    simp only [buildRtable]
    by_cases hn : n = thisIdx
    · have hi' : i < n := by omega
      rw [if_pos hn]
      exact ih (by omega) i g hi' hne hg
    · rw [if_neg hn]
      cases hg' : topo.firstHopGate n with
      | none =>
        have hin : i ≠ n := fun he => by rw [he, hg'] at hg; cases hg
        exact ih (by omega) i g (by omega) hne hg
      | some g' =>
        dsimp only
        unfold rtableInsert
        by_cases hin : i = n
        · subst hin
          rw [hg'] at hg
          injection hg with hgg
          rw [if_pos rfl, hgg]
        · have hne2 : topo.address i ≠ topo.address n := fun he =>
            hin (hinj i (by omega) n (by omega) hne hn he)
          rw [if_neg hne2]
          exact ih (by omega) i g (by omega) hne hg

/-! ## Lemmas about the burst scheduler -/

/-- Delivering one event preserves the invariant, and the FSM never returns to
`INIT` (no `FSM_Goto` in the module targets `INIT`). -/
lemma fire_inv {cfg : AppConfig} {ev : Ev} {dr : Draws} {s s' : AppState}
    (hs : BurstyInv s) (h : fire cfg ev dr s = .ok s') :
    BurstyInv s' ∧ s'.fsm ≠ .INIT := by
  obtain ⟨hI, hS, hA, hSend, hsent⟩ := hs
  unfold BurstyInv
  cases hfsm : s.fsm with
  | INIT =>
    have hsd : s.sendAt = none := hI hfsm
    cases ev with
    | sendMessage => simp [fire, pendingTime, hsd] at h
    | startStopBurst =>
      cases hssb : s.ssbAt with
      | none => simp [fire, pendingTime, hssb] at h
      | some t =>
        simp only [fire, pendingTime, hssb, clearTimer, exitPhase, enterPhase, hfsm,
          Except.ok.injEq] at h
        subst h
        exact ⟨⟨by simp, by simp [hsd], by simp, by simp, by simpa using hsent⟩, by simp⟩
  | SLEEP =>
    obtain ⟨hsb, hsd⟩ := hS hfsm
    cases ev with
    | sendMessage => simp [fire, pendingTime, hsd] at h
    | startStopBurst =>
      obtain ⟨t, hssb⟩ := Option.isSome_iff_exists.mp hsb
      simp only [fire, pendingTime, hssb, clearTimer, exitPhase, enterPhase, generatePacket,
        hfsm, Except.ok.injEq] at h
      subst h
      refine ⟨⟨by simp, by simp, by simp, by simp, ?_⟩, by simp⟩
      intro p hp
      simp only [List.mem_append, List.mem_singleton] at hp
      rcases hp with hp | rfl
      · exact hsent p hp
      · rfl
  | ACTIVE =>
    obtain ⟨hsb, hsd⟩ := hA hfsm
    cases ev with
    | startStopBurst =>
      obtain ⟨t, hssb⟩ := Option.isSome_iff_exists.mp hsb
      simp only [fire, pendingTime, hssb, clearTimer, exitPhase, enterPhase, hfsm,
        Except.ok.injEq] at h
      subst h
      exact ⟨⟨by simp, by simp, by simp, by simp, by simpa using hsent⟩, by simp⟩
    | sendMessage =>
      obtain ⟨t, hsend⟩ := Option.isSome_iff_exists.mp hsd
      simp only [fire, pendingTime, hsend, clearTimer, exitPhase, enterPhase, generatePacket,
        hfsm, Except.ok.injEq] at h
      subst h
      refine ⟨⟨by simp, by simp, by simp [hsb], by simp, ?_⟩, by simp⟩
      intro p hp
      simp only [List.append_assoc, List.mem_append, List.mem_singleton] at hp
      rcases hp with hp | hp | rfl
      · exact hsent p hp
      · rw [hp]
      · rfl
  | SEND => exact absurd hfsm hSend

/-- Every reachable configuration satisfies the invariant; the FSM is in
`INIT` exactly in the initial configuration. -/
lemma reach_inv {cfg : AppConfig} {n : Nat} {s : AppState} (h : ReachN cfg n s) :
    BurstyInv s ∧ (s.fsm = .INIT ↔ n = 0) ∧ (n = 0 → s = initState) := by
  induction h with
  | init =>
    refine ⟨⟨fun _ => rfl, by simp [initState], by simp [initState], by simp [initState],
      by simp [initState]⟩, by simp [initState], fun _ => rfl⟩
  | step hr hf ih =>
    obtain ⟨hinv, hiff, h0⟩ := ih
    obtain ⟨hinv', hni⟩ := fire_inv hinv hf
    exact ⟨hinv', ⟨fun hh => absurd hh hni, fun hh => absurd hh (Nat.succ_ne_zero _)⟩,
      fun hh => absurd hh (Nat.succ_ne_zero _)⟩

/-! ## The claims -/

/-- C1, counterexample.  The claim says: if centralized mode is not configured
OR this node is not the designated root, setup records the reachable
destinations into this node's own table.  Concrete refuting input: centralized
mode, this node has address 1 (not the root) in topology `topoC`, where node 1
(address 7) is reachable; the claim then requires the table to contain exactly
destination 7, but `Routing::initialize` leaves the table empty (the
`if (myAddress == 0)` has no `else` branch, so a centralized non-root node
computes nothing). -/
theorem c1_counterexample :
    ¬ (∀ d, (initializeRouting true 1 topoC 0).rtable d ≠ none
        ↔ ∃ i, i < topoC.numNodes ∧ i ≠ 0 ∧ topoC.address i = d
            ∧ topoC.firstHopGate i ≠ none) := by
  intro hcontra
  exact (hcontra 7).mpr ⟨1, by decide, by decide, by decide, by decide⟩ rfl

/-- C1, amended: if centralized mode is NOT configured, `Routing::initialize`
runs the per-destination shortest-path search locally and records, for each
reachable destination, (destination address -> first-hop egress index) into
this node's own table; after setup the table contains exactly the reachable
destinations (and, when the other nodes' addresses are pairwise distinct, maps
each reachable node's address to the first-hop gate index the shortest-path
service returned for it); nothing is broadcast. -/
theorem c1_distributed_table_exact (myAddress : Int) (topo : Topo) (thisIdx : Nat)
    (hinj : ∀ i, i < topo.numNodes → ∀ j, j < topo.numNodes → i ≠ thisIdx → j ≠ thisIdx →
      topo.address i = topo.address j → i = j) :
    (∀ d, (initializeRouting false myAddress topo thisIdx).rtable d ≠ none
        ↔ ∃ i, i < topo.numNodes ∧ i ≠ thisIdx ∧ topo.address i = d
            ∧ topo.firstHopGate i ≠ none)
    ∧ (∀ i g, i < topo.numNodes → i ≠ thisIdx → topo.firstHopGate i = some g →
        (initializeRouting false myAddress topo thisIdx).rtable (topo.address i) = some g)
    ∧ (initializeRouting false myAddress topo thisIdx).broadcast = none := by
  refine ⟨fun d => ?_, fun i g hi hne hg => ?_, by simp [initializeRouting]⟩
  · simpa [initializeRouting] using buildRtable_ne_none topo thisIdx topo.numNodes d
  · simpa [initializeRouting] using
      buildRtable_value topo thisIdx hinj topo.numNodes le_rfl i g hi hne hg

/-- C1 witness: on `topoC` in distributed mode, the table maps the reachable
address 7 to gate 0. -/
theorem c1_witness :
    (initializeRouting false 1 topoC 0).rtable 7 = some 0 :=
  (c1_distributed_table_exact 1 topoC 0 (by decide)).2.1 1 0 (by decide) (by decide) (by decide)

/-- C2: in centralized mode `Routing::initialize` inserts no entry into
`rtable` on any node; the root (address 0) only writes the computed routes
into the broadcast string, non-root nodes compute nothing; consequently every
received packet with `destAddr != myAddress` takes the drop branch. -/
theorem c2_centralized_no_table (myAddress : Int) (topo : Topo) (thisIdx : Nat) :
    (∀ d, (initializeRouting true myAddress topo thisIdx).rtable d = none)
    ∧ (myAddress = 0 → (initializeRouting true myAddress topo thisIdx).broadcast
        = some (centralRoutesString topo thisIdx topo.numNodes))
    ∧ (myAddress ≠ 0 → (initializeRouting true myAddress topo thisIdx).broadcast = none)
    ∧ (∀ pk : Packet, pk.destAddr ≠ myAddress →
        Routing.handleMessage ⟨myAddress, (initializeRouting true myAddress topo thisIdx).rtable⟩ pk
          = (.drop pk.byteLength, ⟨myAddress, (initializeRouting true myAddress topo thisIdx).rtable⟩)) := by
  by_cases h0 : myAddress = 0
  · exact ⟨fun d => by simp [initializeRouting, h0], fun _ => by simp [initializeRouting, h0],
      fun hne => absurd h0 hne,
      fun pk hne => by subst h0; simp [initializeRouting, Routing.handleMessage, hne]⟩
  · exact ⟨fun d => by simp [initializeRouting, h0], fun he => absurd he h0,
      fun _ => by simp [initializeRouting, h0],
      fun pk hne => by simp [initializeRouting, Routing.handleMessage, h0, hne]⟩

/-- C2 witness: a centralized non-root node (address 3) drops a packet for
address 7. -/
theorem c2_witness :
    Routing.handleMessage ⟨3, (initializeRouting true 3 topoC 0).rtable⟩ pkLocal
      = (.drop pkLocal.byteLength, ⟨3, (initializeRouting true 3 topoC 0).rtable⟩) :=
  (c2_centralized_no_table 3 topoC 0).2.2.2 pkLocal (by decide)

/-- C3: a packet whose `destAddr` equals this node's address is delivered on
`localOut` with `outputIf = -1` emitted, whatever the routing table contains -
the local-delivery check precedes the table lookup. -/
theorem c3_local_delivery_precedence (st : RState) (pk : Packet)
    (h : pk.destAddr = st.myAddress) :
    Routing.handleMessage st pk = (.deliverLocal pk (-1), st) := by
  simp [Routing.handleMessage, h]

/-- C3 witness: `stW`'s table even contains an entry for the node's own
address 7, and the local-delivery branch is still taken. -/
theorem c3_witness :
    Routing.handleMessage stW pkLocal = (.deliverLocal pkLocal (-1), stW)
    ∧ stW.rtable pkLocal.destAddr = some 3 :=
  ⟨c3_local_delivery_precedence stW pkLocal (by decide), by decide⟩

/-- C4: a packet for a foreign destination absent from the table is dropped:
the `drop` signal is emitted with the packet's byte length, the packet is
destroyed, and the module state (routing table included) is unchanged; this
branch returns normally, it is never fatal. -/
theorem c4_unreachable_drop (st : RState) (pk : Packet)
    (hne : pk.destAddr ≠ st.myAddress) (habs : st.rtable pk.destAddr = none) :
    Routing.handleMessage st pk = (.drop pk.byteLength, st) := by
  simp [Routing.handleMessage, hne, habs]

/-- C4 witness: destination 11 is absent from `stW`'s table. -/
theorem c4_witness :
    Routing.handleMessage stW pkMiss = (.drop pkMiss.byteLength, stW) :=
  c4_unreachable_drop stW pkMiss (by decide) (by decide)

/-- C5: a packet for a foreign destination present in the table is forwarded
on the table's egress index with `outputIf` emitted carrying that index, and
its hop count is incremented, hence strictly greater than at ingress. -/
theorem c5_forward_increments_hops (st : RState) (pk : Packet) (g : Int)
    (hne : pk.destAddr ≠ st.myAddress) (hg : st.rtable pk.destAddr = some g) :
    Routing.handleMessage st pk
      = (.forward { pk with hopCount := pk.hopCount + 1 } g g, st)
    ∧ ({ pk with hopCount := pk.hopCount + 1 } : Packet).hopCount > pk.hopCount := by
  refine ⟨by simp [Routing.handleMessage, hne, hg], ?_⟩
  simp only [gt_iff_lt]
  omega

/-- C5 witness: destination 9 maps to gate 2 in `stW`'s table. -/
theorem c5_witness :
    Routing.handleMessage stW pkHit
      = (.forward { pkHit with hopCount := pkHit.hopCount + 1 } 2 2, stW)
    ∧ ({ pkHit with hopCount := pkHit.hopCount + 1 } : Packet).hopCount > pkHit.hopCount :=
  c5_forward_increments_hops stW pkHit 2 (by decide) (by decide)

/-- C6: spec Scenario 1 (address 5, destAddresses [1,2,3], sleepTime 10,
burstTime 5, sendIaTime 1).  The `t = 0` event moves the FSM to Sleeping with
the phase-boundary timer at `t = 10`; the `t = 10` event moves it to Bursting,
with the phase-boundary timer rescheduled for `t = 15` in the
`FSM_Exit(SLEEP)` block - before any packet is generated - and then packet #0
generated and the inter-send timer scheduled for `t = 11` in the
`FSM_Enter(ACTIVE)` block. -/
theorem c6_scenario1_timeline :
    fire cfg6 .startStopBurst dr6 initState = .ok s6a
    ∧ s6a.fsm = .SLEEP ∧ s6a.ssbAt = some 10 ∧ s6a.sent = []
    ∧ exitPhase cfg6 .startStopBurst dr6 { s6a with time := 10, ssbAt := none } = .ok s6b
    ∧ s6b.fsm = .ACTIVE ∧ s6b.ssbAt = some 15 ∧ s6b.sent = [] ∧ s6b.sendAt = none
    ∧ fire cfg6 .startStopBurst dr6 s6a = .ok s6c
    ∧ s6c = enterPhase cfg6 dr6 s6b
    ∧ s6c.fsm = .ACTIVE ∧ s6c.ssbAt = some 15 ∧ s6c.sendAt = some 11
    ∧ s6c.sent.map GenPacket.name = ["pk-5-to-1-#0"]
    ∧ s6c.pkCounter = 1 := by
  decide

/-- C7: in every reachable configuration the FSM is in exactly one of
`INIT`, `SLEEP`, `ACTIVE`; the declared transient `SEND` state is never
reached; `INIT` holds exactly in the initial configuration (before the first
event), which sits at simulation time 0. -/
theorem c7_fsm_state_space (cfg : AppConfig) (n : Nat) (s : AppState)
    (h : ReachN cfg n s) :
    (s.fsm = .INIT ∨ s.fsm = .SLEEP ∨ s.fsm = .ACTIVE)
    ∧ s.fsm ≠ .SEND
    ∧ (s.fsm = .INIT ↔ n = 0)
    ∧ (n = 0 → s = initState ∧ s.time = 0) := by
  obtain ⟨hinv, hiff, h0⟩ := reach_inv h
  obtain ⟨-, -, -, hSend, -⟩ := hinv
  refine ⟨?_, hSend, hiff, fun hn => ⟨h0 hn, by simp [h0 hn, initState]⟩⟩
  cases hs : s.fsm with
  | INIT => exact .inl rfl
  | SLEEP => exact .inr (.inl rfl)
  | ACTIVE => exact .inr (.inr rfl)
  | SEND => exact absurd hs hSend

/-- C7 witness: the initial configuration. -/
theorem c7_witness :
    (initState.fsm = .INIT ∨ initState.fsm = .SLEEP ∨ initState.fsm = .ACTIVE)
    ∧ initState.fsm ≠ .SEND
    ∧ (initState.fsm = .INIT ↔ 0 = 0)
    ∧ ((0 : Nat) = 0 → initState = initState ∧ initState.time = 0) :=
  c7_fsm_state_space cfg6 0 initState ReachN.init

/-- C8: in every reachable configuration, every packet ever generated was
generated with the FSM in `ACTIVE` (so none while Sleeping); while Sleeping
exactly the phase-boundary timer is pending; while Bursting the inter-send
timer (and the phase-boundary timer) is pending; and both timers are pending
only while Bursting. -/
theorem c8_timer_liveness (cfg : AppConfig) (n : Nat) (s : AppState)
    (h : ReachN cfg n s) :
    (∀ p ∈ s.sent, p.atState = .ACTIVE)
    ∧ (s.fsm = .SLEEP → s.ssbAt.isSome = true ∧ s.sendAt = none)
    ∧ (s.fsm = .ACTIVE → s.ssbAt.isSome = true ∧ s.sendAt.isSome = true)
    ∧ (s.ssbAt.isSome = true ∧ s.sendAt.isSome = true → s.fsm = .ACTIVE) := by
  obtain ⟨⟨hI, hS, hA, hSend, hsent⟩, -, -⟩ := reach_inv h
  refine ⟨hsent, hS, hA, fun hb => ?_⟩
  obtain ⟨hb1, hb2⟩ := hb
  cases hs : s.fsm with
  | INIT => rw [hI hs] at hb2; simp at hb2
  | SLEEP => rw [(hS hs).2] at hb2; simp at hb2
  | ACTIVE => rfl
  | SEND => exact absurd hs hSend

/-- C8 witness: the configuration reached after the two Scenario-1 events
(Bursting at time 10, both timers pending, one packet sent from `ACTIVE`). -/
theorem c8_witness :
    (∀ p ∈ s6c.sent, p.atState = .ACTIVE)
    ∧ (s6c.fsm = .SLEEP → s6c.ssbAt.isSome = true ∧ s6c.sendAt = none)
    ∧ (s6c.fsm = .ACTIVE → s6c.ssbAt.isSome = true ∧ s6c.sendAt.isSome = true)
    ∧ (s6c.ssbAt.isSome = true ∧ s6c.sendAt.isSome = true → s6c.fsm = .ACTIVE) :=
  c8_timer_liveness cfg6 2 s6c
    (ReachN.step
      (ReachN.step ReachN.init
        (show fire cfg6 .startStopBurst dr6 initState = .ok s6a by decide))
      (show fire cfg6 .startStopBurst dr6 s6a = .ok s6c by decide))

/-- C9: spec Scenario 3.  On `topo9` (root plus 4 peers, peer of address 3
unreachable) the centralized root records exactly 3 (destination, first-hop
gate) pairs - one per reachable peer, the unreachable peer skipped, no
sentinel stored - and broadcasts their serialization. -/
theorem c9_central_listing_three_entries :
    centralPairs topo9 0 topo9.numNodes = [(1, 0), (2, 1), (4, 1)]
    ∧ (centralPairs topo9 0 topo9.numNodes).length = 3
    ∧ (initializeRouting true 0 topo9 0).broadcast = some "1:0,2:1,4:1"
    ∧ topo9.firstHopGate 3 = none
    ∧ ∀ p ∈ centralPairs topo9 0 topo9.numNodes, p.1 ≠ topo9.address 3 := by
  decide

/-- C10, divergence witness (code bug).  From the Scenario-1 Bursting
configuration, each of the two consecutive inter-send timer firings (t = 11
and t = 12) generates TWO packets, not one: `generatePacket()` runs once in
the `FSM_Exit(ACTIVE)` sendMessage branch and once more in the
`FSM_Enter(ACTIVE)` block, which the `FSM_Switch` macro re-executes on every
event even when the state is unchanged.  The sequence counters do increase
strictly and never reset, as the claim states. -/
theorem c10_double_generation :
    fire cfg6 .sendMessage dr6 s6c = .ok s6d
    ∧ s6d.sent.length = s6c.sent.length + 2
    ∧ fire cfg6 .sendMessage dr6 s6d = .ok s6e
    ∧ s6e.sent.length = s6d.sent.length + 2
    ∧ s6e.sent.map GenPacket.name
        = ["pk-5-to-1-#0", "pk-5-to-1-#1", "pk-5-to-1-#2", "pk-5-to-1-#3", "pk-5-to-1-#4"]
    ∧ s6e.pkCounter = 5 := by
  decide

end RoutingSim
